import Mathlib

/-!
Verification of the apertodns dynamic-DNS client core
(`src/utils.js` resolver/state helpers and `src/index.js`
`runUpdate` / `runDaemonMode` / `getAuthToken`).

The network is modelled as a `ProviderWorld`: a map from a provider URL to
the outcome of an HTTP GET against it — `none` when the call errors or
times out, `some (ok, body)` for a response with `res.ok = ok` and raw
text `body`.  The remote update endpoint is modelled likewise as a map
from the request body to `none` (fetch rejects), or `some (ok, parsed)`
where `parsed` is `none` when `res.json()` rejects and `some hasResults`
when the body parses with a truthy or falsy `results` field.
-/

/-- A provider world: URL ↦ outcome of `fetch(url)`.
`none` = network error / timeout (the promise rejects);
`some (ok, body)` = a response with status flag `res.ok` and text `body`. -/
def ProviderWorld : Type := String → Option (Bool × String)

/-- JavaScript `String.prototype.trim` on the usual ASCII whitespace,
on a character list. -/
def isJsSpace (c : Char) : Bool :=
  c = ' ' || c = '\t' || c = '\n' || c = '\r' || c = '\x0b' || c = '\x0c'

/-- Drop leading and trailing whitespace from a character list. -/
def trimCharList (cs : List Char) : List Char :=
  ((cs.dropWhile isJsSpace).reverse.dropWhile isJsSpace).reverse

/-- Model of JS `s.trim()`. -/
def jsTrim (s : String) : String := ⟨trimCharList s.data⟩

/-- ASCII digit test (JS regex `\d`). -/
def isDigitCh (c : Char) : Bool := Nat.ble 48 c.toNat && Nat.ble c.toNat 57

/-- Split a character list on `'.'` (every dot is a separator, so adjacent
dots yield empty runs), mirroring how the anchored regex
`^(\d{1,3}\.){3}\d{1,3}$` decomposes its subject. -/
def splitOnDotAux : List Char → List Char → List (List Char)
  | [], acc => [acc.reverse]
  | c :: cs, acc =>
    if c = '.' then acc.reverse :: splitOnDotAux cs []
    else splitOnDotAux cs (c :: acc)

/-- A run of one to three ASCII digits (regex `\d{1,3}`). -/
def isShortDigitRun (p : List Char) : Bool :=
  Nat.ble 1 p.length && Nat.ble p.length 3 && p.all isDigitCh

/-- The IPv4 check of `utils.js` `getCurrentIP`:
`/^(\d{1,3}\.){3}\d{1,3}$/.test(ip)` — four dot-separated runs of one to
three digits.  Note the source checks the digit-run shape only; it does
not bound octet values by 255. -/
def validateIPv4 (s : String) : Bool :=
  let parts := splitOnDotAux s.data []
  parts.length = 4 && parts.all isShortDigitRun

/-- The IPv6 check of `utils.js` `getCurrentIPv6`: `ip.includes(':')`. -/
def hasColon (s : String) : Bool := s.data.contains ':'

/-- The hard-coded fallback list of `utils.js` `getCurrentIP`. -/
def fallbackServices : List String :=
  ["https://api.ipify.org", "https://ifconfig.me/ip",
   "https://icanhazip.com", "https://checkip.amazonaws.com"]

/-- The fallback loop of `getCurrentIP`: for each remaining service, a
response with `res.ok` whose trimmed body passes the IPv4 regex is
returned; any error, non-ok status or invalid body moves to the next
entry; exhaustion throws `"Unable to detect IP address"`. -/
def tryFallbacks (world : ProviderWorld) : List String → Except String String
  | [] => .error "Unable to detect IP address"
  | u :: rest =>
    match world u with
    | some (true, body) =>
      let ip := jsTrim body
      if validateIPv4 ip then .ok ip else tryFallbacks world rest
    | _ => tryFallbacks world rest

/-- `utils.js` `getCurrentIP(ipService)`: query the preferred service
(10 s bound); on `res.ok` trim and validate the body, otherwise throw
into the catch block, which iterates `fallbackServices` skipping any
entry equal to `ipService` (5 s bound each). -/
def getCurrentIP (world : ProviderWorld)
    (ipService : String := "https://api.ipify.org") : Except String String :=
  match world ipService with
  | some (true, body) =>
    let ip := jsTrim body
    if validateIPv4 ip then .ok ip
    else tryFallbacks world (fallbackServices.filter (fun u => u ≠ ipService))
  | _ => tryFallbacks world (fallbackServices.filter (fun u => u ≠ ipService))

/-- `utils.js` `getCurrentIPv6(ipService6)`: query the single given
service; on `res.ok` trim the body and require at least one colon; any
error, non-ok status or colon-free body lands in the catch block, which
returns `null` — there is no fallback iteration in this function. -/
def getCurrentIPv6 (world : ProviderWorld)
    (ipService6 : String := "https://api6.ipify.org") : Option String :=
  match world ipService6 with
  | some (true, body) =>
    let ip := jsTrim body
    if hasColon ip then some ip else none
  | _ => none

/-- `utils.js` `saveCurrentIP(ip)` as a transformer of the stored value.
With a string argument the file is overwritten; calling it with `null`
(possible in both update paths when IPv4 resolution failed) makes
`fs.writeFileSync` throw a `TypeError`, which the surrounding
`try/catch` swallows, leaving the previous file contents in place. -/
def saveCurrentIP (stored : Option String) (ip : Option String) : Option String :=
  match ip with
  | some s => some s
  | none => stored

example : validateIPv4 "1.2.3.4" = true := by decide
example : validateIPv4 "999.999.999.999" = true := by decide
example : validateIPv4 "1.2.3" = false := by decide
example : validateIPv4 "1.2.3.4.5" = false := by decide
example : validateIPv4 "1.2.3.a" = false := by decide
example : validateIPv4 "1..2.3" = false := by decide
example : validateIPv4 "1234.1.1.1" = false := by decide
example : jsTrim "  1.2.3.4\n" = "1.2.3.4" := by decide
example : hasColon "2001:db8::1" = true := by decide
example :
    getCurrentIP (fun u => if u = "https://api.ipify.org" then some (true, " 9.9.9.9\n") else none)
      "https://api.ipify.org" = .ok "9.9.9.9" := by rfl
example :
    getCurrentIP (fun _ => none) "https://api.ipify.org" =
      .error "Unable to detect IP address" := by rfl
example :
    getCurrentIP (fun u => if u = "https://icanhazip.com" then some (true, "8.8.8.8") else none)
      "https://api.ipify.org" = .ok "8.8.8.8" := by rfl

/-- `index.js` `getAuthToken`: priority CLI `--api-key` argument, then the
`APERTODNS_API_KEY` environment variable, then the persisted
`config.jwtToken`, then the persisted `config.apiToken`, and finally an
interactive prompt.  The returned flag records whether the prompt ran. -/
def getAuthToken (useApiKey envKey cfgJwt cfgApi : Option String)
    (promptAnswer : String) : String × Bool :=
  match useApiKey with
  | some k => (k, false)
  | none =>
    match envKey with
    | some k => (k, false)
    | none =>
      match cfgJwt with
      | some t => (t, false)
      | none =>
        match cfgApi with
        | some t => (t, false)
        | none => (promptAnswer, true)

/-- The JSON body `runUpdate` posts to `/update-dns`:
`{ name, ip, ttl }` plus an `ipv6` field only when `currentIPv6` is
truthy.  `ip = none` renders as JSON `null`. -/
structure UpdateBody where
  name : String
  ip : Option String
  ipv6 : Option String
  ttl : Nat
deriving Repr, DecidableEq

/-- Outcome of one `fetch` against the update endpoint:
`none` = the fetch promise rejects (network error);
`some (ok, none)` = a response whose body `res.json()` fails to parse;
`some (ok, some hasResults)` = a parsed body whose `results` field is
truthy (`hasResults = true`) or absent/falsy. -/
def UpdateServer : Type := UpdateBody → Option (Bool × Option Bool)

/-- How a single-shot `runUpdate` tick ended. -/
inductive TickStatus where
  /-- Neither family resolved: early return "Nessun IP rilevato". -/
  | noIP
  /-- `!forceUpdate && lastIP === currentIP`: early return "IP invariato". -/
  | unchanged
  /-- `res.ok && data.results`: state saved, success reported. -/
  | updated
  /-- Response received but not `res.ok && data.results`: error reported. -/
  | dispatchError
  /-- The update fetch or `res.json()` rejected; `runUpdate` has no
  try/catch, so the exception escapes to `main`'s handler. -/
  | crashed
deriving Repr, DecidableEq

/-- Observable result of one `runUpdate` tick. -/
structure TickResult where
  status : TickStatus
  /-- The body passed to `fetch`, when the dispatch was reached. -/
  request : Option UpdateBody
  /-- Contents of `last_ip.txt` after the tick. -/
  newLastIP : Option String
deriving Repr, DecidableEq

/-- `await getCurrentIP(svc).catch(() => null)`: the resolved IPv4
address, or `null` when resolution threw. -/
def resolvedV4 (world : ProviderWorld) (ipService : String) : Option String :=
  (getCurrentIP world ipService).toOption

/-- `config.useIPv6 ? await getCurrentIPv6(svc6).catch(() => null) : null`. -/
def resolvedV6 (useIPv6 : Bool) (world : ProviderWorld) (ipv6Service : String) :
    Option String :=
  if useIPv6 then getCurrentIPv6 world ipv6Service else none

/-- `index.js` `runUpdate` from the IP-detection step on, given a loaded
config that already carries `apiToken` (the path taken when
`config.apiToken` is set, so the token prompt prelude is skipped):
resolve IPv4 with `.catch(() => null)`, resolve IPv6 only when
`config.useIPv6`, bail out when both are null, skip when
`!forceUpdate && lastIP === currentIP` (JS `===`, under which
`null === null` holds), otherwise POST the body and save the IPv4
address only when `res.ok && data.results`. -/
def runUpdate (world : ProviderWorld) (server : UpdateServer)
    (forceUpdate useIPv6 : Bool) (ipService ipv6Service domain : String)
    (ttl : Nat) (lastIP : Option String) : TickResult :=
  let currentIP : Option String := resolvedV4 world ipService
  let currentIPv6 : Option String := resolvedV6 useIPv6 world ipv6Service
  if currentIP = none ∧ currentIPv6 = none then
    ⟨.noIP, none, lastIP⟩
  else if forceUpdate = false ∧ lastIP = currentIP then
    ⟨.unchanged, none, lastIP⟩
  else
    let body : UpdateBody := ⟨domain, currentIP, currentIPv6, ttl⟩
    match server body with
    | none => ⟨.crashed, some body, lastIP⟩
    | some (_, none) => ⟨.crashed, some body, lastIP⟩
    | some (ok, some hasResults) =>
      if ok ∧ hasResults then ⟨.updated, some body, saveCurrentIP lastIP currentIP⟩
      else ⟨.dispatchError, some body, lastIP⟩

/-- The body the daemon posts to `/update-dns`:
`{ name, ip, ttl: config.ttl || 300 }` — no IPv6 field ever. -/
structure DaemonBody where
  name : String
  ip : Option String
  ttl : Nat
deriving Repr, DecidableEq

/-- Outcome of the daemon's update fetch, with the same reading as
`UpdateServer`. -/
def DaemonServer : Type := DaemonBody → Option (Bool × Option Bool)

/-- How one daemon tick (the inner `update` closure of `runDaemonMode`)
ended.  Every constructor corresponds to one console line. -/
inductive DStatus where
  /-- `lastIP === currentIP`: "IP invariato". -/
  | unchangedIP
  /-- IP changed but `config.apiToken && config.domain` is falsy: the
  change is logged and the dispatch silently skipped. -/
  | changedNoAuth
  /-- `res.ok`: state saved, "DNS aggiornato". -/
  | updated
  /-- Non-ok response with a parseable body: the server error is logged. -/
  | rejected
  /-- The update fetch or the error-path `res.json()` rejected; the
  tick-level `catch` logs the message and the loop continues. -/
  | caughtError
deriving Repr, DecidableEq

/-- Per-tick environment of the daemon: the timestamp taken at tick
start, the provider world and update endpoint for this tick, and the
configuration fields the tick reads. -/
structure DaemonEnv where
  ts : String
  world : ProviderWorld
  server : DaemonServer
  ipService : Option String
  apiToken : Option String
  domain : Option String
  ttl : Option Nat

/-- Observable result of one daemon tick. -/
structure DTick where
  /-- Contents of `last_ip.txt` after the tick. -/
  newLastIP : Option String
  status : DStatus
  /-- The body passed to the update fetch, when it was invoked. -/
  request : Option DaemonBody
  /-- The message reaching the tick-level `catch`, if any. -/
  thrown : Option String
  /-- Timestamp on the console line this tick printed. -/
  logTs : String
deriving Repr, DecidableEq

/-- The inner `update` closure of `index.js` `runDaemonMode`, with its
whole body inside `try { ... } catch (err) { log }`: resolve IPv4 with
`.catch(() => null)` against `config.ipService || 'https://api.ipify.org'`,
compare to `loadLastIP()` with JS `===`, and on a change dispatch only
when both `config.apiToken` and `config.domain` are set, saving the
address whenever `res.ok`.  The only statements that can throw are the
update `fetch` and the error-path `res.json()`; both are converted by
the `catch` into a logged line, never a loop exit. -/
def daemonUpdate (env : DaemonEnv) (lastIP : Option String) : DTick :=
  let currentIP : Option String :=
    resolvedV4 env.world (env.ipService.getD "https://api.ipify.org")
  if lastIP = currentIP then
    ⟨lastIP, .unchangedIP, none, none, env.ts⟩
  else
    match env.apiToken, env.domain with
    | some _, some dom =>
      let body : DaemonBody := ⟨dom, currentIP, env.ttl.getD 300⟩
      match env.server body with
      | none => ⟨lastIP, .caughtError, some body, some "fetch failed", env.ts⟩
      | some (true, _) =>
        ⟨saveCurrentIP lastIP currentIP, .updated, some body, none, env.ts⟩
      | some (false, none) =>
        ⟨lastIP, .caughtError, some body, some "invalid json", env.ts⟩
      | some (false, some _) =>
        ⟨lastIP, .rejected, some body, none, env.ts⟩
    | _, _ => ⟨lastIP, .changedNoAuth, none, none, env.ts⟩

/-- The daemon loop as a sequence of ticks: each scheduled run of the
`update` closure reads the state left by the previous one and appends
its console line. -/
def daemonRun (envs : List DaemonEnv) (lastIP : Option String) :
    Option String × List DTick :=
  match envs with
  | [] => (lastIP, [])
  | e :: rest =>
    let t := daemonUpdate e lastIP
    let r := daemonRun rest t.newLastIP
    (r.1, t :: r.2)

/-- Timing model of `runDaemonMode`'s scheduling: after the awaited
initial tick finishes at `firstTickEnd`, `setInterval(update, interval)`
fires the k-th scheduled tick at `firstTickEnd + (k+1)*interval`,
independently of whether any earlier tick has finished. -/
def codeTickStart (firstTickEnd interval k : Nat) : Nat :=
  firstTickEnd + (k + 1) * interval

/-- End time of the k-th scheduled tick under the `setInterval` model,
for a given per-tick duration function. -/
def codeTickEnd (firstTickEnd interval : Nat) (dur : Nat → Nat) (k : Nat) : Nat :=
  codeTickStart firstTickEnd interval k + dur k

/-- The no-overlap property the spec ascribes to the scheduler: every
scheduled tick ends no later than the next one starts. -/
def noOverlap (firstTickEnd interval : Nat) (dur : Nat → Nat) : Prop :=
  ∀ k, codeTickEnd firstTickEnd interval dur k ≤
    codeTickStart firstTickEnd interval (k + 1)

/-- A tick duration of three time units, used at concrete inputs. -/
def constDur3 : Nat → Nat := fun _ => 3

/-- Following the spec words of claim C3 (a refinement comparison): the
pure "first success wins" iteration over an ordered provider list — the
first provider whose response is ok and whose trimmed body passes the
IPv4 pattern yields the address. -/
def specFirstValidating (world : ProviderWorld) : List String → Option String
  | [] => none
  | u :: rest =>
    match world u with
    | some (true, body) =>
      let ip := jsTrim body
      if validateIPv4 ip then some ip else specFirstValidating world rest
    | _ => specFirstValidating world rest

/-- Decimal value of a digit run. -/
def decimalValue (p : List Char) : Nat :=
  p.foldl (fun n c => 10 * n + (c.toNat - 48)) 0

/-- Following the spec words of claim C4 (a refinement comparison): the
dotted-quad pattern with "four dot-separated decimal octets, 0–255
each" — the pattern the source actually checks does not bound the octet
values. -/
def specDottedQuad255 (s : String) : Bool :=
  let parts := splitOnDotAux s.data []
  parts.length = 4 &&
    parts.all (fun p => isShortDigitRun p && Nat.ble (decimalValue p) 255)

/-- Modelled from the spec: claim C7 and spec §4.1 say IPv6 resolution
uses the "identical discovery strategy" to IPv4, i.e. the same
preferred-then-fallback iteration with the colon validation in place of
the dotted-quad pattern.  The source has no such code (`getCurrentIPv6`
consults a single provider); this definition follows the spec words so
the source can be compared against it. -/
def tryFallbacks6 (world : ProviderWorld) : List String → Option String
  | [] => none
  | u :: rest =>
    match world u with
    | some (true, body) =>
      let ip := jsTrim body
      if hasColon ip then some ip else tryFallbacks6 world rest
    | _ => tryFallbacks6 world rest

/-- Modelled from the spec: the whole IPv6 resolver under the claimed
"identical fallback discovery strategy" (see `tryFallbacks6`), with the
soft `none` on exhaustion. -/
def getCurrentIPv6AsSpecified (world : ProviderWorld)
    (ipService6 : String) : Option String :=
  match world ipService6 with
  | some (true, body) =>
    let ip := jsTrim body
    if hasColon ip then some ip
    else tryFallbacks6 world (fallbackServices.filter (fun u => u ≠ ipService6))
  | _ => tryFallbacks6 world (fallbackServices.filter (fun u => u ≠ ipService6))

/-- A world where only the default IPv4 provider answers, with `body`. -/
def singleV4World (body : String) : ProviderWorld :=
  fun u => if u = "https://api.ipify.org" then some (true, body) else none

/-- A world where the default IPv4 provider answers `body` and the first
fallback (`ifconfig.me/ip`) answers `good`. -/
def twoV4World (body good : String) : ProviderWorld :=
  fun u =>
    if u = "https://api.ipify.org" then some (true, body)
    else if u = "https://ifconfig.me/ip" then some (true, good) else none

/-- A world where every IPv4 provider is down and the default IPv6
provider answers a valid address. -/
def worldV6only : ProviderWorld :=
  fun u => if u = "https://api6.ipify.org" then some (true, "2001:db8::1") else none

/-- A world where both default providers answer valid addresses. -/
def worldBoth : ProviderWorld :=
  fun u =>
    if u = "https://api.ipify.org" then some (true, "1.2.3.4")
    else if u = "https://api6.ipify.org" then some (true, "2001:db8::1") else none

/-- A world where the default IPv6 provider is down but every other
provider answers a valid IPv6 address. -/
def worldV6Down : ProviderWorld :=
  fun u => if u = "https://api6.ipify.org" then none else some (true, "2001:db8::1")

/-- A world where every provider is down. -/
def worldAllDown : ProviderWorld := fun _ => none

/-- An update endpoint that acknowledges every request
(`res.ok` with a parsed body whose `results` is truthy). -/
def serverOK : UpdateServer := fun _ => some (true, some true)

/-- A daemon update endpoint that acknowledges every request. -/
def daemonServerOK : DaemonServer := fun _ => some (true, some true)

/-- A daemon update endpoint whose fetch always rejects (network error). -/
def daemonServerDown : DaemonServer := fun _ => none

/-- A world whose default IPv4 provider reports the given address. -/
def ipWorld (ip : String) : ProviderWorld :=
  fun u => if u = "https://api.ipify.org" then some (true, ip) else none

/-- Resilience scenario, tick 1: resolves 10.0.0.1, endpoint up. -/
def envT1 : DaemonEnv :=
  ⟨"t1", ipWorld "10.0.0.1", daemonServerOK, none, some "tok",
   some "home.example.com", none⟩

/-- Resilience scenario, tick 2: resolves 10.0.0.2, endpoint down. -/
def envT2 : DaemonEnv :=
  ⟨"t2", ipWorld "10.0.0.2", daemonServerDown, none, some "tok",
   some "home.example.com", none⟩

/-- Resilience scenario, tick 3: resolves 10.0.0.2 again, endpoint up. -/
def envT3 : DaemonEnv :=
  ⟨"t3", ipWorld "10.0.0.2", daemonServerOK, none, some "tok",
   some "home.example.com", none⟩

/-- A daemon tick with no persisted credential: `config.apiToken` absent,
IP resolving to 5.6.7.8. -/
def envNoAuth : DaemonEnv :=
  ⟨"t0", ipWorld "5.6.7.8", daemonServerOK, none, none,
   some "home.example.com", none⟩

/-- A daemon tick whose every IPv4 provider is down, with credential and
domain configured. -/
def envV4Down : DaemonEnv :=
  ⟨"t4", worldAllDown, daemonServerOK, none, some "tok",
   some "home.example.com", none⟩

theorem tryFallbacks_eq_spec (world : ProviderWorld) (urls : List String) :
    tryFallbacks world urls =
      match specFirstValidating world urls with
      | some ip => Except.ok ip
      | none => Except.error "Unable to detect IP address" := by
  induction urls with
  | nil => rfl
  | cons u rest ih =>
    simp only [tryFallbacks, specFirstValidating]
    cases hw : world u with
    | none => exact ih
    | some p =>
      obtain ⟨ok, body⟩ := p
      cases ok
      · exact ih
      · dsimp only
        cases hv : validateIPv4 (jsTrim body)
        · simp only [hv, Bool.false_eq_true, if_false]
          exact ih
        · simp only [hv, if_true]

theorem specFirstValidating_valid (world : ProviderWorld) :
    ∀ (urls : List String) (ip : String),
      specFirstValidating world urls = some ip → validateIPv4 ip = true := by
  intro urls
  induction urls with
  | nil => intro ip h; exact absurd h (by simp [specFirstValidating])
  | cons u rest ih =>
    intro ip h
    rw [specFirstValidating] at h
    cases hw : world u with
    | none => rw [hw] at h; exact ih ip h
    | some p =>
      obtain ⟨ok, body⟩ := p
      cases ok
      · rw [hw] at h; exact ih ip h
      · rw [hw] at h
        dsimp only at h
        cases hv : validateIPv4 (jsTrim body)
        · rw [hv] at h
          simp only [Bool.false_eq_true, if_false] at h
          exact ih ip h
        · rw [hv] at h
          simp only [if_true, Option.some.injEq] at h
          rw [← h]
          exact hv

/-- Claim C3: when the preferred IPv4 provider errors, times out, or
fails validation, `getCurrentIP` walks the remaining fallback providers
in their fixed order, skipping any entry equal to the one already tried,
and returns the first trimmed address that passes the IPv4 pattern; if
every provider is exhausted it throws the `IPUnavailable` error
("Unable to detect IP address"), and every address it does return has
passed validation. -/
theorem ipv4_fallback_priority_and_exhaustion (world : ProviderWorld) (svc : String) :
    (getCurrentIP world svc =
      match specFirstValidating world
          (svc :: fallbackServices.filter (fun u => u ≠ svc)) with
      | some ip => Except.ok ip
      | none => Except.error "Unable to detect IP address")
    ∧ (∀ ip : String, getCurrentIP world svc = Except.ok ip →
        validateIPv4 ip = true) := by
  have htf := tryFallbacks_eq_spec world (fallbackServices.filter (fun u => u ≠ svc))
  have hmain : getCurrentIP world svc =
      match specFirstValidating world
          (svc :: fallbackServices.filter (fun u => u ≠ svc)) with
      | some ip => Except.ok ip
      | none => Except.error "Unable to detect IP address" := by
    unfold getCurrentIP
    simp only [specFirstValidating]
    cases hw : world svc with
    | none => exact htf
    | some p =>
      obtain ⟨ok, body⟩ := p
      cases ok
      · exact htf
      · dsimp only
        cases hv : validateIPv4 (jsTrim body)
        · simp only [hv, Bool.false_eq_true, if_false]
          exact htf
        · simp only [hv, if_true]
  refine ⟨hmain, ?_⟩
  intro ip h
  rw [hmain] at h
  cases hs : specFirstValidating world
      (svc :: fallbackServices.filter (fun u => u ≠ svc)) with
  | none => rw [hs] at h; exact absurd h (by simp)
  | some j =>
    rw [hs] at h
    simp only [Except.ok.injEq] at h
    rw [← h]
    exact specFirstValidating_valid world _ j hs

/-- Witness for C3: the theorem applied to a world whose preferred
provider answers 9.9.9.9. -/
theorem ipv4_fallback_priority_and_exhaustion_witness :
    validateIPv4 "9.9.9.9" = true :=
  (ipv4_fallback_priority_and_exhaustion (singleV4World "9.9.9.9")
    "https://api.ipify.org").2 "9.9.9.9" rfl

/-- Claim C4 counterexample: the source pattern `(\d{1,3}\.){3}\d{1,3}`
accepts 999.999.999.999, whose octets exceed 255, so `getCurrentIP`
returns a string that the claim (octets 0–255 each) says cannot be
returned. -/
theorem ipv4_pattern_cx :
    getCurrentIP (singleV4World "999.999.999.999") "https://api.ipify.org" =
      Except.ok "999.999.999.999" ∧
    specDottedQuad255 "999.999.999.999" = false := by
  exact ⟨rfl, by decide⟩

/-- Claim C4 (amended): a provider response is returned unchanged after
trimming iff the trimmed text matches four dot-separated runs of one to
three decimal digits (the pattern does not bound octet values by 255);
a non-matching response is treated as that provider failing and the next
fallback is consulted. -/
theorem ipv4_pattern_gate (body good : String) :
    (getCurrentIP (singleV4World body) "https://api.ipify.org" =
      if validateIPv4 (jsTrim body) = true then Except.ok (jsTrim body)
      else Except.error "Unable to detect IP address")
    ∧ (validateIPv4 (jsTrim body) = false → validateIPv4 (jsTrim good) = true →
      getCurrentIP (twoV4World body good) "https://api.ipify.org" =
        Except.ok (jsTrim good)) := by
  constructor
  · have hw : singleV4World body "https://api.ipify.org" = some (true, body) := rfl
    unfold getCurrentIP
    rw [hw]
    dsimp only
    cases hv : validateIPv4 (jsTrim body)
    · simp only [hv, Bool.false_eq_true, if_false]
      rfl
    · simp only [hv, if_true]
  · intro hb hg
    have hw : twoV4World body good "https://api.ipify.org" = some (true, body) := rfl
    have hw1 : twoV4World body good "https://ifconfig.me/ip" = some (true, good) := rfl
    unfold getCurrentIP
    rw [hw]
    dsimp only
    simp only [hb, Bool.false_eq_true, if_false]
    have hl : fallbackServices.filter (fun u => u ≠ "https://api.ipify.org") =
        ["https://ifconfig.me/ip", "https://icanhazip.com",
         "https://checkip.amazonaws.com"] := by rfl
    rw [hl]
    simp only [tryFallbacks]
    rw [hw1]
    dsimp only
    simp only [hg, if_true]

/-- Witness for C4: an invalid preferred response falls through to the
first fallback, whose valid answer is returned. -/
theorem ipv4_pattern_gate_witness :
    getCurrentIP (twoV4World "not an ip" "7.7.7.7") "https://api.ipify.org" =
      Except.ok "7.7.7.7" :=
  (ipv4_pattern_gate "not an ip" "7.7.7.7").2 (by decide) (by decide)

/-- Claim C7 counterexample: with the preferred IPv6 provider down and
every other provider answering a valid IPv6 address, the source
`getCurrentIPv6` returns `none`, while the resolver the claim describes
(identical fallback strategy to IPv4) would return the fallback answer —
so IPv6 resolution does not use the IPv4 fallback strategy. -/
theorem ipv6_no_fallback_cx :
    getCurrentIPv6 worldV6Down "https://api6.ipify.org" = none ∧
    getCurrentIPv6AsSpecified worldV6Down "https://api6.ipify.org" =
      some "2001:db8::1" := by
  exact ⟨rfl, rfl⟩

/-- Claim C7 (amended): IPv6 resolution consults only the single given
provider — its result depends on no other provider — and its failure is
soft: a network error or non-ok status yields `none` rather than an
error, and any address it does return contains a colon. -/
theorem ipv6_single_provider_soft :
    (∀ (w w2 : ProviderWorld) (svc6 : String), w svc6 = w2 svc6 →
      getCurrentIPv6 w svc6 = getCurrentIPv6 w2 svc6)
    ∧ (∀ (w : ProviderWorld) (svc6 ip : String),
      getCurrentIPv6 w svc6 = some ip → hasColon ip = true)
    ∧ (∀ (w : ProviderWorld) (svc6 : String), w svc6 = none →
      getCurrentIPv6 w svc6 = none)
    ∧ (∀ (w : ProviderWorld) (svc6 body : String),
      w svc6 = some (false, body) → getCurrentIPv6 w svc6 = none) := by
  refine ⟨?_, ?_, ?_, ?_⟩
  · intro w w2 svc6 h
    unfold getCurrentIPv6
    rw [h]
  · intro w svc6 ip h
    unfold getCurrentIPv6 at h
    cases hw : w svc6 with
    | none => rw [hw] at h; exact absurd h (by simp)
    | some p =>
      obtain ⟨ok, body⟩ := p
      cases ok
      · rw [hw] at h; exact absurd h (by simp)
      · rw [hw] at h
        dsimp only at h
        cases hc : hasColon (jsTrim body)
        · rw [hc] at h
          simp only [Bool.false_eq_true, if_false] at h
          exact absurd h (by simp)
        · rw [hc] at h
          simp only [if_true, Option.some.injEq] at h
          rw [← h]
          exact hc
  · intro w svc6 h
    unfold getCurrentIPv6
    rw [h]
  · intro w svc6 body h
    unfold getCurrentIPv6
    rw [h]

/-- Witness for C7: the theorem applied to the all-providers-down world. -/
theorem ipv6_single_provider_soft_witness :
    getCurrentIPv6 worldAllDown "https://api6.ipify.org" = none :=
  ipv6_single_provider_soft.2.2.1 worldAllDown "https://api6.ipify.org" rfl

/-- Claim C1 counterexample: with no prior stored address, a failed IPv4
resolution and a successful IPv6 resolution, `runUpdate` decides
"IP invariato" (JS `null === null`) and never reaches the dispatcher —
although the claim says a tick with no prior state always dispatches. -/
theorem reconciliation_decision_cx :
    runUpdate worldV6only serverOK false true "https://api.ipify.org"
      "https://api6.ipify.org" "home.example.com" 300 none =
    ⟨TickStatus.unchanged, none, none⟩ := by
  rfl

/-- Claim C1 (amended): once at least one family resolved, the decision
is Unchanged exactly when the force flag is off and the stored IPv4
value equals the freshly resolved IPv4 value under JS `===` — including
the case where both are absent — and the dispatcher is reached exactly
when some family resolved and either the force flag is set or the
stored and resolved IPv4 values differ. -/
theorem reconciliation_decision (world : ProviderWorld) (server : UpdateServer)
    (force useIPv6 : Bool) (svc svc6 dom : String) (ttl : Nat)
    (lastIP : Option String) :
    ((runUpdate world server force useIPv6 svc svc6 dom ttl lastIP).status =
        TickStatus.unchanged ↔
      ¬(resolvedV4 world svc = none ∧ resolvedV6 useIPv6 world svc6 = none) ∧
        force = false ∧ lastIP = resolvedV4 world svc)
    ∧ ((runUpdate world server force useIPv6 svc svc6 dom ttl lastIP).request ≠
        none ↔
      ¬(resolvedV4 world svc = none ∧ resolvedV6 useIPv6 world svc6 = none) ∧
        (force = true ∨ lastIP ≠ resolvedV4 world svc)) := by
  unfold runUpdate
  dsimp only
  by_cases h1 : resolvedV4 world svc = none ∧ resolvedV6 useIPv6 world svc6 = none
  · rw [if_pos h1]
    refine ⟨iff_of_false (by simp) ?_, iff_of_false (by simp) ?_⟩
    · rintro ⟨hn, -⟩; exact hn h1
    · rintro ⟨hn, -⟩; exact hn h1
  · rw [if_neg h1]
    by_cases h2 : force = false ∧ lastIP = resolvedV4 world svc
    · rw [if_pos h2]
      refine ⟨iff_of_true rfl ⟨h1, h2⟩, iff_of_false (by simp) ?_⟩
      rintro ⟨-, hf | hne⟩
      · rw [h2.1] at hf; exact Bool.false_ne_true hf
      · exact hne h2.2
    · rw [if_neg h2]
      have hor : force = true ∨ lastIP ≠ resolvedV4 world svc := by
        cases force
        · right; intro he; exact h2 ⟨rfl, he⟩
        · left; rfl
      have hno : ¬(¬(resolvedV4 world svc = none ∧
          resolvedV6 useIPv6 world svc6 = none) ∧
          force = false ∧ lastIP = resolvedV4 world svc) := by
        rintro ⟨-, hf, he⟩; exact h2 ⟨hf, he⟩
      cases hs : server ⟨dom, resolvedV4 world svc,
          resolvedV6 useIPv6 world svc6, ttl⟩ with
      | none => exact ⟨iff_of_false (by simp) hno, iff_of_true (by simp) ⟨h1, hor⟩⟩
      | some p =>
        obtain ⟨ok, b⟩ := p
        cases b with
        | none =>
          exact ⟨iff_of_false (by simp) hno, iff_of_true (by simp) ⟨h1, hor⟩⟩
        | some r =>
          dsimp only
          by_cases h3 : ok = true ∧ r = true
          · rw [if_pos h3]
            exact ⟨iff_of_false (by simp) hno, iff_of_true (by simp) ⟨h1, hor⟩⟩
          · rw [if_neg h3]
            exact ⟨iff_of_false (by simp) hno, iff_of_true (by simp) ⟨h1, hor⟩⟩

/-- Claim C2: in both update paths the stored address can only move on a
tick whose dispatch the server acknowledged (`res.ok`, plus a truthy
`results` in the single-shot path); any failed or skipped dispatch
leaves the state untouched.  The third conjunct replays the resilience
scenario: tick 1 applies 10.0.0.1; tick 2 resolves 10.0.0.2 but its
dispatch dies on a network error, leaving the state at 10.0.0.1; tick 3
resolves 10.0.0.2 again, decides "changed" again, retries the dispatch
and only then advances the state. -/
theorem state_advances_only_on_ack :
    (∀ (world : ProviderWorld) (server : UpdateServer) (force useIPv6 : Bool)
      (svc svc6 dom : String) (ttl : Nat) (lastIP : Option String),
      (runUpdate world server force useIPv6 svc svc6 dom ttl lastIP).newLastIP =
        lastIP ∨
      (runUpdate world server force useIPv6 svc svc6 dom ttl lastIP).status =
        TickStatus.updated)
    ∧ (∀ (env : DaemonEnv) (st : Option String),
      (daemonUpdate env st).newLastIP = st ∨
      (daemonUpdate env st).status = DStatus.updated)
    ∧ daemonRun [envT1, envT2, envT3] none =
      (some "10.0.0.2",
       [⟨some "10.0.0.1", DStatus.updated,
          some ⟨"home.example.com", some "10.0.0.1", 300⟩, none, "t1"⟩,
        ⟨some "10.0.0.1", DStatus.caughtError,
          some ⟨"home.example.com", some "10.0.0.2", 300⟩,
          some "fetch failed", "t2"⟩,
        ⟨some "10.0.0.2", DStatus.updated,
          some ⟨"home.example.com", some "10.0.0.2", 300⟩, none, "t3"⟩]) := by
  refine ⟨?_, ?_, ?_⟩
  · intro world server force useIPv6 svc svc6 dom ttl lastIP
    unfold runUpdate
    dsimp only
    repeat' split
    all_goals first | exact Or.inl rfl | exact Or.inr rfl
  · intro env st
    unfold daemonUpdate
    dsimp only
    repeat' split
    all_goals first | exact Or.inl rfl | exact Or.inr rfl
  · rfl

/-- Claim C5 counterexample: under the `setInterval` scheduling of
`runDaemonMode`, with an interval of 1 and every tick lasting 3 units,
the second scheduled tick starts (at time 2) before the first scheduled
tick ends (at time 4) — so the scheduler does not wait for the current
tick's awaited chain, contradicting the no-overlap claim. -/
theorem scheduler_overlap_cx :
    codeTickStart 0 1 1 < codeTickEnd 0 1 constDur3 0 ∧
    ¬ noOverlap 0 1 constDur3 := by
  constructor
  · decide
  · intro h
    have h0 := h 0
    unfold noOverlap codeTickEnd codeTickStart constDur3 at h0
    omega

/-- Claim C5 (amended): `runDaemonMode` arms a fixed-rate timer
(`setInterval`) after the awaited initial tick, so scheduled ticks start
at fixed multiples of the interval regardless of completion; whenever a
tick's duration exceeds the interval, the next tick starts strictly
before it ends — ticks can overlap. -/
theorem scheduler_overlap (firstTickEnd interval : Nat) (dur : Nat → Nat)
    (k : Nat) (h : interval < dur k) :
    codeTickStart firstTickEnd interval (k + 1) <
      codeTickEnd firstTickEnd interval dur k := by
  unfold codeTickEnd codeTickStart
  have hm : (k + 1 + 1) * interval = (k + 1) * interval + interval := by ring
  omega

/-- Witness for C5 at interval 1 and tick duration 3. -/
theorem scheduler_overlap_witness :
    1 < constDur3 0 ∧ codeTickStart 0 1 1 < codeTickEnd 0 1 constDur3 0 :=
  ⟨by decide, scheduler_overlap 0 1 constDur3 0 (by decide)⟩

/-- Claim C6 counterexample: stored IPv4 equals the resolved IPv4 while
IPv6 resolves with no stored IPv6 counterpart — by the claim the IPv6
family should trigger a dispatch, but `runUpdate` decides "unchanged"
from the IPv4 comparison alone and the dispatcher is never invoked. -/
theorem dispatch_gated_by_ipv4_cx :
    runUpdate worldBoth serverOK false true "https://api.ipify.org"
      "https://api6.ipify.org" "home.example.com" 300 (some "1.2.3.4") =
    ⟨TickStatus.unchanged, none, some "1.2.3.4"⟩ := by
  rfl

/-- Claim C6 (amended): only the IPv4 comparison (with the force flag)
gates the dispatch — IPv6 is never reconciled against stored state and
never triggers an update on its own — but when a dispatch happens it is
a single request carrying the resolved IPv4 (possibly null) and the
resolved IPv6 when present. -/
theorem dispatch_gated_by_ipv4 (world : ProviderWorld) (server : UpdateServer)
    (force useIPv6 : Bool) (svc svc6 dom : String) (ttl : Nat)
    (lastIP : Option String) :
    ((runUpdate world server force useIPv6 svc svc6 dom ttl lastIP).request =
        none ∨
      (runUpdate world server force useIPv6 svc svc6 dom ttl lastIP).request =
        some ⟨dom, resolvedV4 world svc, resolvedV6 useIPv6 world svc6, ttl⟩)
    ∧ (resolvedV4 world svc ≠ none →
      ((runUpdate world server force useIPv6 svc svc6 dom ttl lastIP).request ≠
          none ↔
        (force = true ∨ lastIP ≠ resolvedV4 world svc))) := by
  constructor
  · unfold runUpdate
    dsimp only
    repeat' split
    all_goals first | exact Or.inl rfl | exact Or.inr rfl
  · intro h4
    have h1 : ¬(resolvedV4 world svc = none ∧
        resolvedV6 useIPv6 world svc6 = none) := fun hh => h4 hh.1
    unfold runUpdate
    dsimp only
    rw [if_neg h1]
    by_cases h2 : force = false ∧ lastIP = resolvedV4 world svc
    · rw [if_pos h2]
      refine iff_of_false (by simp) ?_
      rintro (hf | hne)
      · rw [h2.1] at hf; exact Bool.false_ne_true hf
      · exact hne h2.2
    · rw [if_neg h2]
      have hor : force = true ∨ lastIP ≠ resolvedV4 world svc := by
        cases force
        · right; intro he; exact h2 ⟨rfl, he⟩
        · left; rfl
      refine iff_of_true ?_ hor
      cases hs : server ⟨dom, resolvedV4 world svc,
          resolvedV6 useIPv6 world svc6, ttl⟩ with
      | none => simp
      | some p =>
        obtain ⟨ok, b⟩ := p
        cases b with
        | none => simp
        | some r =>
          dsimp only
          by_cases h3 : ok = true ∧ r = true
          · rw [if_pos h3]; simp
          · rw [if_neg h3]; simp

/-- Witness for C6: with both families resolved and a differing stored
address, the dispatch gate is open. -/
theorem dispatch_gated_by_ipv4_witness :
    (runUpdate worldBoth serverOK false true "https://api.ipify.org"
      "https://api6.ipify.org" "home.example.com" 300
      (some "9.9.9.9")).request ≠ none ↔
    (false = true ∨ (some "9.9.9.9" : Option String) ≠
      resolvedV4 worldBoth "https://api.ipify.org") :=
  (dispatch_gated_by_ipv4 worldBoth serverOK false true "https://api.ipify.org"
    "https://api6.ipify.org" "home.example.com" 300 (some "9.9.9.9")).2
    (by decide)

theorem daemonUpdate_logTs (env : DaemonEnv) (st : Option String) :
    (daemonUpdate env st).logTs = env.ts := by
  unfold daemonUpdate
  dsimp only
  repeat' split
  all_goals rfl

theorem daemonUpdate_thrown_spec (env : DaemonEnv) (st : Option String) :
    (daemonUpdate env st).thrown = none ∨
      ((daemonUpdate env st).status = DStatus.caughtError ∧
       (daemonUpdate env st).newLastIP = st) := by
  unfold daemonUpdate
  dsimp only
  repeat' split
  all_goals first | exact Or.inl rfl | exact Or.inr ⟨rfl, rfl⟩

/-- Claim C8: every daemon tick is total — whatever a tick throws is
absorbed by the tick-level catch, which records the error against the
tick's own timestamp and leaves the stored state untouched — and the
scheduling loop runs every tick regardless: the log of a run over any
tick sequence carries exactly one line per tick, stamped with that
tick's timestamp, even when earlier ticks erred. -/
theorem daemon_loop_isolation :
    (∀ (envs : List DaemonEnv) (st : Option String),
      ((daemonRun envs st).2).map DTick.logTs = envs.map DaemonEnv.ts)
    ∧ (∀ (env : DaemonEnv) (st : Option String),
      (daemonUpdate env st).thrown ≠ none →
        (daemonUpdate env st).status = DStatus.caughtError ∧
        (daemonUpdate env st).newLastIP = st) := by
  constructor
  · intro envs
    induction envs with
    | nil => intro st; rfl
    | cons e rest ih =>
      intro st
      unfold daemonRun
      dsimp only
      rw [List.map_cons, List.map_cons, ih, daemonUpdate_logTs]
  · intro env st h
    rcases daemonUpdate_thrown_spec env st with h0 | h0
    · exact absurd h0 h
    · exact h0

/-- Witness for C8: the network-error tick of the resilience scenario is
caught and leaves the state at 10.0.0.1. -/
theorem daemon_loop_isolation_witness :
    (daemonUpdate envT2 (some "10.0.0.1")).status = DStatus.caughtError ∧
    (daemonUpdate envT2 (some "10.0.0.1")).newLastIP = some "10.0.0.1" :=
  daemon_loop_isolation.2 envT2 (some "10.0.0.1") (by decide)

/-- Claim C9 counterexample: a daemon tick with no persisted credential
(`config.apiToken` absent) and a changed IP completes with a plain
"IP cambiato" log line, no dispatch and no error of any kind — it does
not fail with `AuthMissing` as the claim requires. -/
theorem daemon_no_authmissing_cx :
    daemonUpdate envNoAuth (some "1.2.3.4") =
      ⟨some "1.2.3.4", DStatus.changedNoAuth, none, none, "t0"⟩ := by
  rfl

/-- Claim C9 (amended): `getAuthToken` resolves the credential in the
order CLI argument, `APERTODNS_API_KEY` environment variable, persisted
`jwtToken`, persisted `apiToken`, and prompts only when all four are
absent; the daemon never consults `getAuthToken` and never prompts — it
reads only the persisted `apiToken`, and when that is absent the tick
silently skips the dispatch and finishes without raising any error. -/
theorem auth_order_and_daemon_skip :
    (∀ (k : String) (e j c : Option String) (p : String),
      getAuthToken (some k) e j c p = (k, false))
    ∧ (∀ (e : String) (j c : Option String) (p : String),
      getAuthToken none (some e) j c p = (e, false))
    ∧ (∀ (j : String) (c : Option String) (p : String),
      getAuthToken none none (some j) c p = (j, false))
    ∧ (∀ (c p : String), getAuthToken none none none (some c) p = (c, false))
    ∧ (∀ (p : String), getAuthToken none none none none p = (p, true))
    ∧ (∀ (env : DaemonEnv) (st : Option String), env.apiToken = none →
      (daemonUpdate env st).request = none ∧
      (daemonUpdate env st).thrown = none ∧
      (daemonUpdate env st).newLastIP = st) := by
  refine ⟨fun _ _ _ _ _ => rfl, fun _ _ _ _ => rfl, fun _ _ _ => rfl,
    fun _ _ => rfl, fun _ => rfl, ?_⟩
  intro env st h
  obtain ⟨ts, w, srv, isvc, tok, dmn, tl⟩ := env
  dsimp only at h
  subst h
  unfold daemonUpdate
  dsimp only
  split
  · exact ⟨rfl, rfl, rfl⟩
  · exact ⟨rfl, rfl, rfl⟩

/-- Witness for C9: the credential-less daemon environment, applied to
the last conjunct of the theorem. -/
theorem auth_order_and_daemon_skip_witness :
    (daemonUpdate envNoAuth none).request = none ∧
    (daemonUpdate envNoAuth none).thrown = none ∧
    (daemonUpdate envNoAuth none).newLastIP = none :=
  auth_order_and_daemon_skip.2.2.2.2.2 envNoAuth none rfl

/-- Claim C10: in daemon mode a total IPv4 resolution failure is not a
tick error — the resolved value becomes null, and with a stored address
present the comparison reads as a change, so the tick proceeds to
dispatch a request whose ip field is null (the decision is not
"IP invariato"). -/
theorem daemon_nullip_dispatch (env : DaemonEnv) (st : Option String)
    (x tok dom : String)
    (hres : resolvedV4 env.world (env.ipService.getD "https://api.ipify.org") =
      none)
    (hst : st = some x) (htok : env.apiToken = some tok)
    (hdom : env.domain = some dom) :
    (daemonUpdate env st).request = some ⟨dom, none, env.ttl.getD 300⟩ ∧
    (daemonUpdate env st).status ≠ DStatus.unchangedIP := by
  unfold daemonUpdate
  dsimp only
  rw [hres, hst, htok, hdom]
  rw [if_neg (by simp)]
  dsimp only
  cases hs : env.server ⟨dom, none, env.ttl.getD 300⟩ with
  | none => exact ⟨rfl, by simp⟩
  | some p =>
    obtain ⟨ok, b⟩ := p
    cases ok
    · cases b with
      | none => exact ⟨rfl, by simp⟩
      | some r => exact ⟨rfl, by simp⟩
    · exact ⟨rfl, by simp⟩

/-- Witness for C10: all IPv4 providers down, stored address 1.2.3.4,
credential and domain configured — the dispatched body carries a null
ip. -/
theorem daemon_nullip_dispatch_witness :
    (daemonUpdate envV4Down (some "1.2.3.4")).request =
      some ⟨"home.example.com", none, 300⟩ ∧
    (daemonUpdate envV4Down (some "1.2.3.4")).status ≠ DStatus.unchangedIP :=
  daemon_nullip_dispatch envV4Down (some "1.2.3.4") "1.2.3.4" "tok"
    "home.example.com" rfl rfl rfl rfl
